import Mathlib

/-!
Verification of the streaming wake-word detection and orchestration engine
of the plisCordAssistant voice pipeline.

The development shallowly embeds the JavaScript source:

* `src/core/wakeword/vad.js` — the voice-activity hysteresis state machine
  (`VADProcessor`).
* `src/core/wakeword/detector.js` — the frame batcher, the embedding
  accumulator, the cooldown-debounced wake-word detector and the recording
  capturer (`WakeWordDetector`).
* the function-calling stage (`FunctionCaller.process`) and the top-level
  orchestrator (`VoicePipeline`).

External inference engines (VAD scorer, spectrogram, embedding, wake-word
classifier, Whisper, the language model, TTS) are out of scope of the source
design and are modelled as oracle inputs: each batch carries the score,
embedding and classifier probability the engines would return for it, and
each pipeline cycle carries the outcomes of the engine calls it performs.
JavaScript numbers that hold probabilities are modelled as rationals, and
machine timestamps as naturals.
-/

/-- JavaScript `x || d` for an optionally-supplied numeric option: `undefined`
and `0` are falsy, so both select the default `d`.  Models option reads such
as `options.threshold || 0.5` in the constructors. -/
def jsOrQ (v : Option ℚ) (d : ℚ) : ℚ :=
  match v with
  | none => d
  | some x => if x = 0 then d else x

/-- JavaScript `x || d` for a natural-number option (`options.cooldownMs || 2000`,
`options.negativeCount || 8`): `undefined` and `0` are falsy. -/
def jsOrN (v : Option ℕ) (d : ℕ) : ℕ :=
  match v with
  | none => d
  | some x => if x = 0 then d else x

/-- JavaScript `x || d` for a boolean option (`options.debug || false`). -/
def jsOrB (v : Option Bool) (d : Bool) : Bool :=
  match v with
  | none => d
  | some b => if b then b else d

/-- JavaScript `x || d` for a string option (`options.wakeWord || "hey-buddy"`):
`undefined` and the empty string are falsy. -/
def jsOrS (v : Option String) (d : String) : String :=
  match v with
  | none => d
  | some s => if s.isEmpty then d else s

/-- JavaScript truthiness of a possibly-absent string value (`undefined`,
`null` and `""` are falsy), as used by `if (result.response)` and
`if (toolResult?.response)`. -/
def truthyStr (v : Option String) : Bool :=
  match v with
  | none => false
  | some s => !s.isEmpty

/-- The empty-transcript guard of `onSpeechEnd`
(`!transcript || transcript.trim().length === 0`): true exactly when the
transcript contains only whitespace (in particular when it is empty). -/
def blankTranscript (t : String) : Bool :=
  t.data.all (fun c => c.isWhitespace)

namespace VADProcessor

/-- Threshold configuration of `VADProcessor` (fields set in the constructor
of `src/core/wakeword/vad.js`). -/
structure VADConfig where
  positiveThreshold : ℚ
  negativeThreshold : ℚ
  negativeCount : ℕ
deriving DecidableEq

/-- Construction-time options of `VADProcessor` (absent field = `undefined`). -/
structure VADOptions where
  positiveThreshold : Option ℚ := none
  negativeThreshold : Option ℚ := none
  negativeCount : Option ℕ := none
deriving DecidableEq

/-- The `VADProcessor` constructor: each option falls back to its default when
falsy (`options.positiveThreshold || 0.65`, `options.negativeThreshold || 0.4`,
`options.negativeCount || 8`). -/
def mkConfig (o : VADOptions) : VADConfig :=
  { positiveThreshold := jsOrQ o.positiveThreshold (mkRat 65 100)
    negativeThreshold := jsOrQ o.negativeThreshold (mkRat 4 10)
    negativeCount := jsOrN o.negativeCount 8 }

/-- Mutable state of `VADProcessor` tracked across `process` calls.  The
opaque LSTM tensors `h` and `c` are threaded through the external scoring
engine and never inspected by this logic, so they are not part of the model. -/
structure VADState where
  isSpeaking : Bool
  negativeSamples : ℕ
deriving DecidableEq

/-- The state set by the constructor and by `reset()`. -/
def initialState : VADState :=
  { isSpeaking := false, negativeSamples := 0 }

/-- The record returned by `VADProcessor.process`. -/
structure VADResult where
  probability : ℚ
  isSpeaking : Bool
  justStarted : Bool
  justEnded : Bool
deriving DecidableEq

/-- `VADProcessor.process` (vad.js lines 46-71), with the probability read
from the scoring engine passed in directly: hysteresis update of
`isSpeaking` and the negative-streak counter, plus edge flags computed
against the previous `isSpeaking`. -/
def process (cfg : VADConfig) (s : VADState) (probability : ℚ) :
    VADState × VADResult :=
  let was := s.isSpeaking
  let s' : VADState :=
    if cfg.positiveThreshold ≤ probability then
      { isSpeaking := true, negativeSamples := 0 }
    else if probability < cfg.negativeThreshold then
      { isSpeaking :=
          if cfg.negativeCount ≤ s.negativeSamples + 1 then false else s.isSpeaking
        negativeSamples := s.negativeSamples + 1 }
    else s
  (s', { probability := probability
         isSpeaking := s'.isSpeaking
         justStarted := s'.isSpeaking && !was
         justEnded := !s'.isSpeaking && was })

end VADProcessor

namespace WakeWordDetector

/-- `batchSamples = Math.floor(16000 * 1.08)`: the analysis-window length W. -/
def batchSamples : ℕ := 17280

/-- `batchInterval = Math.floor(16000 * 0.12)`: the hop length H. -/
def batchInterval : ℕ := 1920

section Batcher

variable {α : Type}

/-- The `while (audioBuffer.length >= batchSamples)` drain loop of
`processAudioChunk` (detector.js lines 190-196): while at least `W` samples
are buffered, emit the first `W` samples as a window and drop the first `H`
samples.  The loop is expressed with an explicit iteration bound (`fuel`);
since every iteration removes `H ≥ 1` samples, a bound of the buffer length
covers every iteration the source loop performs. -/
def drainAux (W H : ℕ) : ℕ → List α → List (List α) × List α
  | 0, buf => ([], buf)
  | fuel + 1, buf =>
    if W ≤ buf.length then
      let r := drainAux W H fuel (buf.drop H)
      (buf.take W :: r.1, r.2)
    else ([], buf)

/-- `processAudioChunk` for a running, unpaused detector (detector.js lines
174-196), restricted to the batching logic: append the incoming samples to
the pending buffer, then run the drain loop.  Returns the windows emitted by
this call (each of which the source passes to `processBatch`) and the
remaining buffer. -/
def processAudioChunk (W H : ℕ) (buf chunk : List α) :
    List (List α) × List α :=
  drainAux W H (buf.length + chunk.length) (buf ++ chunk)

/-- Feeding a sequence of chunks through `processAudioChunk`, starting from
buffer `buf`; returns all emitted windows in order and the final buffer. -/
def runChunksFrom (W H : ℕ) : List α → List (List α) → List (List α) × List α
  | buf, [] => ([], buf)
  | buf, c :: cs =>
    let r := processAudioChunk W H buf c
    let rest := runChunksFrom W H r.2 cs
    (r.1 ++ rest.1, rest.2)

/-- Feeding a sequence of chunks through `processAudioChunk` starting from the
empty buffer set up by the constructor. -/
def runChunks (W H : ℕ) (cs : List (List α)) : List (List α) × List α :=
  runChunksFrom W H [] cs

end Batcher

/-- Iteration-bounded count of windows the drain loop extracts from a buffer
of length `len`: one window per iteration while `W ≤ len`, each iteration
removing `H` samples. -/
def numWindowsAux (W H : ℕ) : ℕ → ℕ → ℕ
  | 0, _ => 0
  | fuel + 1, len => if W ≤ len then numWindowsAux W H fuel (len - H) + 1 else 0

/-- Number of windows the drain loop extracts from a buffer of length `len`
(the bound `len` covers all iterations whenever `0 < H`). -/
def numWindows (W H len : ℕ) : ℕ :=
  numWindowsAux W H len len

/-- Construction-time options of `WakeWordDetector` (absent field =
`undefined`). -/
structure DetectorOptions where
  debug : Option Bool := none
  wakeWord : Option String := none
  threshold : Option ℚ := none
  cooldownMs : Option ℕ := none
deriving DecidableEq

/-- Configuration fixed by the `WakeWordDetector` constructor (detector.js
lines 27-69). -/
structure DetConfig where
  debug : Bool
  wakeWord : String
  threshold : ℚ
  cooldownMs : ℕ
  sampleRate : ℕ
  batchSamplesCfg : ℕ
  batchIntervalCfg : ℕ
  embeddingFrames : ℕ
  vad : VADProcessor.VADConfig
deriving DecidableEq

/-- The `WakeWordDetector` constructor: falsy options fall back to defaults
(`options.threshold || 0.5`, `options.cooldownMs || 2000`, ...); the sample
rate, batch geometry, embedding-window capacity and the VAD thresholds are
hardcoded. -/
def mkConfig (o : DetectorOptions) : DetConfig :=
  { debug := jsOrB o.debug false
    wakeWord := jsOrS o.wakeWord "hey-buddy"
    threshold := jsOrQ o.threshold (mkRat 1 2)
    cooldownMs := jsOrN o.cooldownMs 2000
    sampleRate := 16000
    batchSamplesCfg := batchSamples
    batchIntervalCfg := batchInterval
    embeddingFrames := 16
    vad := { positiveThreshold := mkRat 65 100
             negativeThreshold := mkRat 4 10
             negativeCount := 8 } }

/-- Mutable state of `WakeWordDetector` relevant to batch processing and to
the start/stop/pause/resume operations.  Embeddings returned by the external
embedding engine are modelled as abstract tags (`ℕ`); audio sample windows
as `List ℤ`.  `listeners` counts the data subscriptions installed on the
audio source (`audioSource.on` adds one, `removeAllListeners` removes all). -/
structure DetectorState where
  isRunning : Bool
  isPaused : Bool
  isRecording : Bool
  lastWakeWordTime : ℕ
  recordingBuffer : Option (List ℤ)
  vadState : VADProcessor.VADState
  embeddingBuffer : List ℕ
  listeners : ℕ
deriving DecidableEq

/-- Detector state set up by the constructor. -/
def initialState : DetectorState :=
  { isRunning := false
    isPaused := false
    isRecording := false
    lastWakeWordTime := 0
    recordingBuffer := none
    vadState := VADProcessor.initialState
    embeddingBuffer := []
    listeners := 0 }

/-- `start(audioSource)` (detector.js lines 124-136): mark running and
subscribe one data listener on the audio source. -/
def start (d : DetectorState) : DetectorState :=
  { d with isRunning := true, listeners := d.listeners + 1 }

/-- `stop()` (detector.js lines 138-142): mark not running and remove all
data listeners from the audio source.  No other field is touched. -/
def stop (d : DetectorState) : DetectorState :=
  { d with isRunning := false, listeners := 0 }

/-- `pause()` (detector.js lines 144-146). -/
def pause (d : DetectorState) : DetectorState :=
  { d with isPaused := true }

/-- `resume()` (detector.js lines 148-152): clear the pause flag and discard
any open recording session. -/
def resume (d : DetectorState) : DetectorState :=
  { d with isPaused := false, isRecording := false, recordingBuffer := none }

/-- Events emitted by the detector during `processBatch`. -/
inductive DetEvent where
  | vadEvt (probability : ℚ) (isSpeaking : Bool)
  | speechStart
  | speechEnd (buf : Option (List ℤ))
  | detected
deriving DecidableEq

/-- Per-batch oracle inputs to `processBatch`: the VAD score the scoring
engine returns for the batch, the embedding tag the embedding engine returns,
the probability the wake-word classifier would return for the current
embedding window, the value of `Date.now()`, and the raw samples of the
batch. -/
structure BatchInput where
  score : ℚ
  emb : ℕ
  wwProb : ℚ
  now : ℕ
  audio : List ℤ
deriving DecidableEq, Inhabited

/-- `processBatch` (detector.js lines 202-255): run the VAD, emit the `vad`
event and the start/end edges, clear the recording buffer on speech end,
return early unless speaking, push the embedding into the FIFO window,
evict the oldest entry past capacity, and once the window is full evaluate
the classifier and apply the cooldown-debounced detection that opens a
recording session seeded with the current batch. -/
def processBatch (cfg : DetConfig) (s : DetectorState) (b : BatchInput) :
    DetectorState × List DetEvent :=
  let p := VADProcessor.process cfg.vad s.vadState b.score
  let r := p.2
  let s1 : DetectorState := { s with vadState := p.1 }
  let evs1 : List DetEvent :=
    if r.justStarted then
      [DetEvent.vadEvt r.probability r.isSpeaking, DetEvent.speechStart]
    else
      [DetEvent.vadEvt r.probability r.isSpeaking]
  let s2 : DetectorState :=
    if r.justEnded then { s1 with recordingBuffer := none } else s1
  let evs2 : List DetEvent :=
    if r.justEnded then evs1 ++ [DetEvent.speechEnd s.recordingBuffer] else evs1
  if r.isSpeaking = false then
    (s2, evs2)
  else
    let eb0 := s2.embeddingBuffer ++ [b.emb]
    let eb := if cfg.embeddingFrames < eb0.length then eb0.drop 1 else eb0
    let s3 : DetectorState := { s2 with embeddingBuffer := eb }
    if cfg.embeddingFrames ≤ eb.length then
      if cfg.threshold ≤ b.wwProb ∧ s3.lastWakeWordTime + cfg.cooldownMs ≤ b.now then
        ({ s3 with lastWakeWordTime := b.now
                   isRecording := true
                   recordingBuffer := some b.audio },
         evs2 ++ [DetEvent.detected])
      else (s3, evs2)
    else (s3, evs2)

/-- Run a sequence of batches through `processBatch`, collecting the final
state and the per-batch event lists. -/
def runBatches (cfg : DetConfig) : DetectorState → List BatchInput →
    DetectorState × List (List DetEvent)
  | s, [] => (s, [])
  | s, b :: bs =>
    let r := processBatch cfg s b
    let rest := runBatches cfg r.1 bs
    (rest.1, r.2 :: rest.2)

end WakeWordDetector

namespace FunctionCaller

/-- The value a tool handler resolves with (`{ response?: string, ...extra }`);
only the optional `response` field is read by the core. -/
structure ToolResult where
  response : Option String := none
deriving DecidableEq

/-- The result record built by `FunctionCaller.process` from the parsed model
output (`{ function, parameters, response, executed, error, toolResult }`).
`parameters` is an opaque rendering of the JSON parameters object. -/
structure FCResult where
  function : Option String := none
  parameters : Option String := none
  response : Option String := none
  executed : Option Bool := none
  error : Option String := none
  toolResult : Option ToolResult := none
deriving DecidableEq

/-- `FunctionCaller.process` (function-caller module, lines 106-180), with
the tokenizer/generation/parse pipeline modelled as the oracle `gen`: a
generation failure yields the fallback record of the outer catch; otherwise,
when the parsed record names a registered tool, the tool handler is invoked —
its success marks the record executed and lets a truthy tool response
override the model response, and its failure is caught and converted into
the apology response `Sorry, I had trouble with that.` followed by the error
message. -/
def process (tools : List String)
    (handlers : String → Option String → Except String ToolResult)
    (gen : Except String FCResult) : FCResult :=
  match gen with
  | Except.error e =>
    { function := none
      parameters := none
      response := some "I\x27m sorry, I didn\x27t understand that."
      error := some e }
  | Except.ok parsed =>
    match parsed.function with
    | some f =>
      if ¬f.isEmpty ∧ f ∈ tools then
        match handlers f parsed.parameters with
        | Except.ok tr =>
          let r1 : FCResult := { parsed with executed := some true, toolResult := some tr }
          if truthyStr tr.response then { r1 with response := tr.response } else r1
        | Except.error e =>
          { parsed with
              executed := some false
              error := some e
              response := some ("Sorry, I had trouble with that. " ++ e) }
      else parsed
    | none => parsed

end FunctionCaller

namespace VoicePipeline

/-- The pipeline state enum (`idle`, `listening`, `recording`, `transcribing`,
`processing`, `speaking`). -/
inductive PState where
  | idle
  | listening
  | recording
  | transcribing
  | processing
  | speaking
deriving DecidableEq

/-- State of `VoicePipeline` relevant to orchestration, together with the
embedded wake-word detector state. -/
structure PipelineModel where
  state : PState
  isPaused : Bool
  isInitialized : Bool
  det : WakeWordDetector.DetectorState
deriving DecidableEq

/-- Pipeline state after the constructor (pipeline.js lines 35-60). -/
def initialModel : PipelineModel :=
  { state := PState.idle
    isPaused := false
    isInitialized := false
    det := WakeWordDetector.initialState }

/-- `VoicePipeline.start` (pipeline.js lines 165-176), after initialization:
enter `listening` and start the detector on the audio source. -/
def startP (m : PipelineModel) : PipelineModel :=
  { m with state := PState.listening, det := WakeWordDetector.start m.det }

/-- `VoicePipeline.stop` (pipeline.js lines 181-187): stop the detector
(which unsubscribes its audio listeners), stop the TTS, and enter `idle`. -/
def stopP (m : PipelineModel) : PipelineModel :=
  { m with state := PState.idle, det := WakeWordDetector.stop m.det }

/-- `VoicePipeline.pause` (pipeline.js lines 192-195). -/
def pauseP (m : PipelineModel) : PipelineModel :=
  { m with isPaused := true, det := WakeWordDetector.pause m.det }

/-- `VoicePipeline.resume` (pipeline.js lines 200-205): unpause, resume the
detector (discarding any open recording session) and enter `listening`. -/
def resumeP (m : PipelineModel) : PipelineModel :=
  { m with
      isPaused := false
      state := PState.listening
      det := WakeWordDetector.resume m.det }

/-- Handler of the `detected` event (pipeline.js lines 210-218): enter
`recording`. -/
def onWakeWordDetected (m : PipelineModel) : PipelineModel :=
  { m with state := PState.recording }

/-- Everything one `onSpeechEnd` cycle produces: the pipeline state when the
call resolves, the intent result (when the cycle got that far), the texts
driven into `tts.speak`, and the message of the `error` event when the
catch block ran. -/
structure CycleOutcome where
  pipeline : PipelineModel
  result : Option FunctionCaller.FCResult
  spoken : List String
  errEvent : Option String
deriving DecidableEq

/-- `VoicePipeline.onSpeechEnd` (pipeline.js lines 224-268), with the engine
calls it awaits passed as oracles (`sttOut` for `stt.transcribe`, `gen` for
the generation step inside `functionCaller.process`, `ttsOut` for
`tts.speak`).  A non-`recording` state returns immediately; otherwise the
pipeline pauses, transcribes, discards empty transcripts, runs the function
caller, speaks a truthy response, converts any engine exception into an
`error` event, and always resumes (entering `listening`) before resolving. -/
def onSpeechEnd (tools : List String)
    (handlers : String → Option String → Except String FunctionCaller.ToolResult)
    (sttOut : Option (List ℤ) → Except String String)
    (gen : String → Except String FunctionCaller.FCResult)
    (ttsOut : String → Except String Unit)
    (m : PipelineModel) (audio : Option (List ℤ)) : CycleOutcome :=
  if m.state ≠ PState.recording then
    { pipeline := m, result := none, spoken := [], errEvent := none }
  else
    let m1 := pauseP m
    let m2 : PipelineModel := { m1 with state := PState.transcribing }
    match sttOut audio with
    | Except.error e =>
      { pipeline := resumeP m2, result := none, spoken := [], errEvent := some e }
    | Except.ok transcript =>
      if blankTranscript transcript then
        { pipeline := resumeP m2, result := none, spoken := [], errEvent := none }
      else
        let r := FunctionCaller.process tools handlers (gen transcript)
        let m3 : PipelineModel := { m2 with state := PState.processing }
        if truthyStr r.response then
          let m4 : PipelineModel := { m3 with state := PState.speaking }
          let txt := r.response.getD ""
          match ttsOut txt with
          | Except.ok _ =>
            { pipeline := resumeP m4, result := some r, spoken := [txt], errEvent := none }
          | Except.error e =>
            { pipeline := resumeP m4, result := some r, spoken := [txt], errEvent := some e }
        else
          { pipeline := resumeP m3, result := some r, spoken := [], errEvent := none }

/-- `VoicePipeline.processText` (pipeline.js lines 277-289): initialize if
needed (which leaves the state `idle`), run the function caller on the text,
speak a truthy response, and return the result.  The pipeline state is never
changed by this method; a TTS failure is not caught and rejects the call. -/
def processText (tools : List String)
    (handlers : String → Option String → Except String FunctionCaller.ToolResult)
    (gen : String → Except String FunctionCaller.FCResult)
    (ttsOut : String → Except String Unit)
    (m : PipelineModel) (text : String) :
    Except String (PipelineModel × FunctionCaller.FCResult × List String) :=
  let m1 := if m.isInitialized then m
            else { m with isInitialized := true, state := PState.idle }
  let r := FunctionCaller.process tools handlers (gen text)
  if truthyStr r.response then
    match ttsOut (r.response.getD "") with
    | Except.ok _ => Except.ok (m1, r, [r.response.getD ""])
    | Except.error e => Except.error e
  else Except.ok (m1, r, [])

end VoicePipeline

namespace WakeWordDetector

/-- The configuration produced by constructing the detector with no options,
as the pipeline does (it passes only `wakeWord` and `debug`). -/
def defaultConfig : DetConfig := mkConfig {}

/-- Scores of a two-segment speech trace: two high-score windows, then eight
windows below the negative threshold (the eighth ends the speech segment),
then a high-score window opening a second, disjoint segment. -/
def segScore (i : ℕ) : ℚ :=
  if i < 2 then mkRat 9 10 else if i < 10 then mkRat 1 10 else mkRat 9 10

/-- A two-segment batch trace: batch `i` carries embedding tag `i`, a
classifier probability of zero and the scores of `segScore`. -/
def segTrace : List BatchInput :=
  (List.range 11).map (fun i =>
    { score := segScore i, emb := i, wwProb := 0, now := 0, audio := [] })

/-- Timestamps for a trace with one accepted detection at 10000 ms followed by
two qualifying classifier results at 11000 ms and 11500 ms, both inside the
2000 ms cooldown window. -/
def cooldownTime (i : ℕ) : ℕ :=
  if i = 15 then 10000 else if i = 16 then 11000 else if i = 17 then 11500 else 600 * i

/-- Eighteen continuously-speaking batches whose classifier probability always
qualifies; the embedding window first fills at batch 15. -/
def cooldownTrace : List BatchInput :=
  (List.range 18).map (fun i =>
    { score := mkRat 9 10, emb := i, wwProb := mkRat 9 10
      now := cooldownTime i, audio := [Int.ofNat i] })

/-- Timestamps for a trace with accepted detections at 10000 ms (batch 15) and
13000 ms (batch 16), the second after the cooldown has elapsed. -/
def acceptTime (i : ℕ) : ℕ :=
  if i = 15 then 10000 else if i = 16 then 13000 else 600 * i

/-- Seventeen continuously-speaking batches whose classifier probability
always qualifies; detections are accepted at batches 15 and 16. -/
def acceptTrace : List BatchInput :=
  (List.range 17).map (fun i =>
    { score := mkRat 9 10, emb := i, wwProb := mkRat 9 10
      now := acceptTime i, audio := [Int.ofNat i] })

end WakeWordDetector

namespace VoicePipeline

/-- A started pipeline whose detector has just accepted a wake-word detection
(the run of `acceptTrace` up to and including batch 15) and whose `detected`
event handler has moved the orchestrator to `recording`: an initialized
pipeline mid-command, with an open recording session seeded with the
detection batch. -/
def midRecordingModel : PipelineModel :=
  let m1 := startP { initialModel with isInitialized := true }
  let d1 := (WakeWordDetector.runBatches WakeWordDetector.defaultConfig m1.det
    (WakeWordDetector.acceptTrace.take 16)).1
  onWakeWordDetected { m1 with det := d1 }

end VoicePipeline

/-- C2: one `VADProcessor.process` step realises the hysteresis rule.  For any
configuration with `negativeThreshold ≤ positiveThreshold` (the in-between
band well-formed, as in every configuration the source constructs): a score
at or above the positive threshold sets `isSpeaking` and resets the negative
streak to zero; a score below the negative threshold increments the streak,
forcing `isSpeaking = false` exactly when the incremented streak has reached
`negativeCount` and leaving it unchanged otherwise; a score in the dead zone
changes nothing; and the `justStarted` / `justEnded` flags hold exactly on
the call where `isSpeaking` flips relative to the previous call. -/
theorem vad_process_spec (cfg : VADProcessor.VADConfig) (s : VADProcessor.VADState) (p : ℚ)
    (hth : cfg.negativeThreshold ≤ cfg.positiveThreshold) :
    (cfg.positiveThreshold ≤ p →
      (VADProcessor.process cfg s p).1.isSpeaking = true ∧
      (VADProcessor.process cfg s p).1.negativeSamples = 0) ∧
    (p < cfg.negativeThreshold →
      (VADProcessor.process cfg s p).1.negativeSamples = s.negativeSamples + 1 ∧
      (cfg.negativeCount ≤ s.negativeSamples + 1 →
        (VADProcessor.process cfg s p).1.isSpeaking = false) ∧
      (s.negativeSamples + 1 < cfg.negativeCount →
        (VADProcessor.process cfg s p).1.isSpeaking = s.isSpeaking)) ∧
    (cfg.negativeThreshold ≤ p → p < cfg.positiveThreshold →
      (VADProcessor.process cfg s p).1 = s) ∧
    ((VADProcessor.process cfg s p).2.isSpeaking = (VADProcessor.process cfg s p).1.isSpeaking) ∧
    ((VADProcessor.process cfg s p).2.justStarted = true ↔
      ((VADProcessor.process cfg s p).1.isSpeaking = true ∧ s.isSpeaking = false)) ∧
    ((VADProcessor.process cfg s p).2.justEnded = true ↔
      ((VADProcessor.process cfg s p).1.isSpeaking = false ∧ s.isSpeaking = true)) := by
  simp only [VADProcessor.process]
  split_ifs with h1 h2 h3 <;>
    refine ⟨fun hp => ?_, fun hn => ?_, fun hm hm' => ?_, by simp, ?_, ?_⟩ <;>
    try (exfalso; linarith)
  all_goals cases h : s.isSpeaking <;> simp_all

/-- Witness for `vad_process_spec`: with the default thresholds, a speaking
state with a negative streak of 7 receives a score of 0.1: the streak reaches
8 and speaking ends. -/
theorem vad_process_spec_witness :
    (VADProcessor.process (VADProcessor.mkConfig {}) ⟨true, 7⟩ (mkRat 1 10)).1.negativeSamples = 8 ∧
    (VADProcessor.process (VADProcessor.mkConfig {}) ⟨true, 7⟩ (mkRat 1 10)).1.isSpeaking = false :=
  have h := vad_process_spec (VADProcessor.mkConfig {}) ⟨true, 7⟩ (mkRat 1 10) (by decide)
  ⟨(h.2.1 (by decide)).1, (h.2.1 (by decide)).2.1 (by decide)⟩

/-- C9: passing `0` for a numeric option is indistinguishable from omitting
it, because `||` treats `0` as falsy: `positiveThreshold: 0` yields 0.65,
`threshold: 0` yields 0.5, `cooldownMs: 0` yields 2000, and no constructed
configuration can carry a zero threshold or a zero cooldown. -/
theorem zero_option_uses_default :
    (∀ nt nc, VADProcessor.mkConfig ⟨some 0, nt, nc⟩ = VADProcessor.mkConfig ⟨none, nt, nc⟩) ∧
    (VADProcessor.mkConfig ⟨some 0, none, none⟩).positiveThreshold = mkRat 65 100 ∧
    (∀ d w c, WakeWordDetector.mkConfig ⟨d, w, some 0, c⟩ =
      WakeWordDetector.mkConfig ⟨d, w, none, c⟩) ∧
    (WakeWordDetector.mkConfig ⟨none, none, some 0, none⟩).threshold = mkRat 1 2 ∧
    (∀ d w t, WakeWordDetector.mkConfig ⟨d, w, t, some 0⟩ =
      WakeWordDetector.mkConfig ⟨d, w, t, none⟩) ∧
    (WakeWordDetector.mkConfig ⟨none, none, none, some 0⟩).cooldownMs = 2000 ∧
    (∀ o : WakeWordDetector.DetectorOptions,
      (WakeWordDetector.mkConfig o).threshold ≠ 0 ∧ (WakeWordDetector.mkConfig o).cooldownMs ≠ 0) ∧
    (∀ vo : VADProcessor.VADOptions, (VADProcessor.mkConfig vo).positiveThreshold ≠ 0) := by
  refine ⟨fun nt nc => by simp [VADProcessor.mkConfig, jsOrQ],
    by simp [VADProcessor.mkConfig, jsOrQ],
    fun d w c => by simp [WakeWordDetector.mkConfig, jsOrQ],
    by simp [WakeWordDetector.mkConfig, jsOrQ],
    fun d w t => by simp [WakeWordDetector.mkConfig, jsOrN],
    by simp [WakeWordDetector.mkConfig, jsOrN],
    fun o => ⟨?_, ?_⟩, fun vo => ?_⟩
  · simp only [WakeWordDetector.mkConfig, jsOrQ]
    match o.threshold with
    | none => decide
    | some x =>
      by_cases hx : x = 0
      · simp [hx]
      · simp [hx]
  · simp only [WakeWordDetector.mkConfig, jsOrN]
    match o.cooldownMs with
    | none => decide
    | some x =>
      by_cases hx : x = 0
      · simp [hx]
      · simp [hx]
  · simp only [VADProcessor.mkConfig, jsOrQ]
    match vo.positiveThreshold with
    | none => decide
    | some x =>
      by_cases hx : x = 0
      · simp [hx]
      · simp [hx]

/-- C10: `resume()` from any detector state clears the pause flag and
discards any open recording session: `isRecording` becomes false,
`recordingBuffer` becomes `null`, every other field is untouched, and on any
batch processed after the resume, no `speechEnd` event can carry the
previously captured audio (a speech-end edge now emits `null`). -/
theorem resume_discards_session (d : WakeWordDetector.DetectorState) :
    (WakeWordDetector.resume d).isPaused = false ∧
    (WakeWordDetector.resume d).isRecording = false ∧
    (WakeWordDetector.resume d).recordingBuffer = none ∧
    (WakeWordDetector.resume d).isRunning = d.isRunning ∧
    (WakeWordDetector.resume d).lastWakeWordTime = d.lastWakeWordTime ∧
    (WakeWordDetector.resume d).vadState = d.vadState ∧
    (WakeWordDetector.resume d).embeddingBuffer = d.embeddingBuffer ∧
    (WakeWordDetector.resume d).listeners = d.listeners ∧
    ∀ (cfg : WakeWordDetector.DetConfig) (b : WakeWordDetector.BatchInput) (u : List ℤ),
      WakeWordDetector.DetEvent.speechEnd (some u) ∉
        (WakeWordDetector.processBatch cfg (WakeWordDetector.resume d) b).2 := by
  refine ⟨rfl, rfl, rfl, rfl, rfl, rfl, rfl, rfl, fun cfg b u => ?_⟩
  simp only [WakeWordDetector.processBatch, WakeWordDetector.resume]
  split_ifs <;> simp

set_option maxRecDepth 10000 in
/-- C1 fails on the code: in the two-segment trace `segTrace`, speech ends at
batch 9 (a `speechEnd` edge) while the embedding window holds only 9 of the
16 embeddings it needs, yet the window still holds those 9 embeddings after
the edge, and the embedding of batch 10 — the first window of a disjoint
speech segment — is pushed on top of them instead of into an empty window.
The source never clears `embeddingBuffer` when voice activity ends. -/
theorem embedding_window_survives_speech_end :
    (WakeWordDetector.runBatches WakeWordDetector.defaultConfig
        WakeWordDetector.initialState (WakeWordDetector.segTrace.take 10)).1.embeddingBuffer =
      [0, 1, 2, 3, 4, 5, 6, 7, 8] ∧
    WakeWordDetector.DetEvent.speechEnd none ∈
      (WakeWordDetector.runBatches WakeWordDetector.defaultConfig
        WakeWordDetector.initialState WakeWordDetector.segTrace).2.getD 9 [] ∧
    (WakeWordDetector.runBatches WakeWordDetector.defaultConfig
        WakeWordDetector.initialState WakeWordDetector.segTrace).1.embeddingBuffer =
      [0, 1, 2, 3, 4, 5, 6, 7, 8, 10] ∧
    (9 : ℕ) < WakeWordDetector.defaultConfig.embeddingFrames := by
  decide

namespace WakeWordDetector

/-- The window count computed by `numWindowsAux` does not depend on the
iteration bound, as long as the bound covers the buffer length. -/
theorem numWindowsAux_fuel {W H : ℕ} (hW : 0 < W) (hH : 0 < H) :
    ∀ fuel fuel' len, len ≤ fuel → len ≤ fuel' →
      numWindowsAux W H fuel len = numWindowsAux W H fuel' len := by
  intro fuel
  induction fuel with
  | zero =>
    intro fuel' len h h'
    have hlen : len = 0 := by omega
    subst hlen
    cases fuel' with
    | zero => rfl
    | succ f => simp [numWindowsAux, Nat.not_le.mpr hW]
  | succ f ih =>
    intro fuel' len h h'
    cases fuel' with
    | zero =>
      have hlen : len = 0 := by omega
      subst hlen
      simp [numWindowsAux, Nat.not_le.mpr hW]
    | succ f' =>
      simp only [numWindowsAux]
      by_cases hle : W ≤ len
      · rw [if_pos hle, if_pos hle, ih f' (len - H) (by omega) (by omega)]
      · rw [if_neg hle, if_neg hle]

/-- Unfolding rule of `numWindows` when a window fits. -/
theorem numWindows_pos {W H : ℕ} (len : ℕ) (hW : 0 < W) (hH : 0 < H) (h : W ≤ len) :
    numWindows W H len = numWindows W H (len - H) + 1 := by
  unfold numWindows
  cases len with
  | zero => omega
  | succ n =>
    simp only [numWindowsAux]
    rw [if_pos h]
    congr 1
    exact numWindowsAux_fuel hW hH n (n + 1 - H) (n + 1 - H) (by omega) le_rfl

/-- Unfolding rule of `numWindows` when no window fits. -/
theorem numWindows_zero {W H : ℕ} (len : ℕ) (h : ¬W ≤ len) :
    numWindows W H len = 0 := by
  unfold numWindows
  cases len with
  | zero => rfl
  | succ n =>
    simp only [numWindowsAux]
    rw [if_neg h]

/-- Every extracted window lies entirely inside the buffer: the k-th window
starts at offset `k * H` and its `W` samples exist. -/
theorem numWindows_window_le {W H : ℕ} (hH : 0 < H) (hWH : H ≤ W) :
    ∀ len k, k < numWindows W H len → k * H + W ≤ len := by
  intro len
  induction len using Nat.strong_induction_on with
  | _ len ih =>
    intro k hk
    by_cases h : W ≤ len
    · have hW : 0 < W := by omega
      rw [numWindows_pos len hW hH h] at hk
      cases k with
      | zero => simpa using h
      | succ k =>
        have hh := ih (len - H) (by omega) k (by omega)
        rw [Nat.succ_mul]
        omega
    · rw [numWindows_zero len h] at hk
      omega

/-- The total stride consumed by the drain loop never exceeds the buffer. -/
theorem numWindows_mul_le {W H : ℕ} (hH : 0 < H) (hWH : H ≤ W) (len : ℕ) :
    numWindows W H len * H ≤ len := by
  cases hm : numWindows W H len with
  | zero => simp
  | succ n =>
    have hh := numWindows_window_le hH hWH len n (by omega)
    rw [Nat.succ_mul]
    omega

/-- Window counting splits across a growth of the buffer: draining a buffer
of length `L`, then draining again after it has grown to `L'`, extracts as
many windows in total as draining the length-`L'` buffer at once. -/
theorem numWindows_split {W H : ℕ} (hH : 0 < H) (hWH : H ≤ W) :
    ∀ L L', L ≤ L' →
      numWindows W H L' = numWindows W H L + numWindows W H (L' - numWindows W H L * H) := by
  intro L
  induction L using Nat.strong_induction_on with
  | _ L ih =>
    intro L' hLL
    by_cases h : W ≤ L
    · have hW : 0 < W := by omega
      rw [numWindows_pos L hW hH h, numWindows_pos L' hW hH (le_trans h hLL)]
      have ihh := ih (L - H) (by omega) (L' - H) (by omega)
      have harg : L' - (numWindows W H (L - H) + 1) * H
          = (L' - H) - numWindows W H (L - H) * H := by
        rw [Nat.succ_mul]; omega
      rw [harg]
      omega
    · rw [numWindows_zero L h]
      simp

/-- Characterization of one run of the drain loop: from a buffer `buf` it
emits exactly the windows starting at offsets `0, H, 2H, ...` that fit
entirely in `buf`, each of length `W`, and leaves the buffer past the
consumed stride. -/
theorem drainAux_spec {α : Type} {W H : ℕ} (hH : 0 < H) (hWH : H ≤ W) :
    ∀ (fuel : ℕ) (buf : List α), buf.length ≤ fuel →
      drainAux W H fuel buf =
        ((List.range (numWindows W H buf.length)).map (fun k => (buf.drop (k * H)).take W),
         buf.drop (numWindows W H buf.length * H)) := by
  intro fuel
  induction fuel with
  | zero =>
    intro buf h
    have hb : buf = [] := List.length_eq_zero.mp (by omega)
    subst hb
    simp [drainAux, numWindows_zero 0 (by omega : ¬W ≤ 0)]
  | succ fuel ih =>
    intro buf h
    by_cases hle : W ≤ buf.length
    · have hW : 0 < W := by omega
      rw [numWindows_pos buf.length hW hH hle]
      simp only [drainAux]
      rw [if_pos hle]
      have hlen : (buf.drop H).length ≤ fuel := by
        rw [List.length_drop]; omega
      rw [ih (buf.drop H) hlen]
      rw [List.length_drop]
      simp only [Prod.mk.injEq]
      constructor
      · rw [List.range_succ_eq_map, List.map_cons, List.map_map]
        simp only [Nat.zero_mul, List.drop_zero]
        congr 1
        apply List.map_congr_left
        intro k hk
        simp only [Function.comp_apply]
        rw [List.drop_drop]
        congr 2
        simp only [Nat.succ_eq_add_one]
        ring
      · rw [List.drop_drop]
        congr 1
        ring
    · simp only [drainAux]
      rw [if_neg hle]
      rw [numWindows_zero buf.length hle]
      simp

/-- Characterization of chunked feeding: starting from a partially-consumed
stream `S`, feeding any further chunks emits exactly the remaining stride
windows of the grown stream, independently of how the samples are split into
chunks. -/
theorem runChunksFrom_spec {α : Type} {W H : ℕ} (hH : 0 < H) (hWH : H ≤ W) :
    ∀ (cs : List (List α)) (S : List α),
      runChunksFrom W H (S.drop (numWindows W H S.length * H)) cs =
        ((List.range' (numWindows W H S.length)
            (numWindows W H (S ++ cs.join).length - numWindows W H S.length)).map
           (fun k => ((S ++ cs.join).drop (k * H)).take W),
         (S ++ cs.join).drop (numWindows W H (S ++ cs.join).length * H)) := by
  intro cs
  induction cs with
  | nil =>
    intro S
    simp [runChunksFrom]
  | cons c cs ih =>
    intro S
    have hW : 0 < W := by omega
    have hm : numWindows W H S.length * H ≤ S.length := numWindows_mul_le hH hWH S.length
    have hSc : S.length ≤ (S ++ c).length := by simp
    have hsplit_c : numWindows W H (S ++ c).length =
        numWindows W H S.length +
          numWindows W H ((S ++ c).length - numWindows W H S.length * H) :=
      numWindows_split hH hWH S.length (S ++ c).length hSc
    simp only [runChunksFrom, processAudioChunk]
    rw [← List.drop_append_of_le_length hm]
    have hfuel : ((S ++ c).drop (numWindows W H S.length * H)).length ≤
        (S.drop (numWindows W H S.length * H)).length + c.length := by
      simp only [List.length_drop, List.length_append]
      omega
    rw [drainAux_spec hH hWH _ _ hfuel]
    have hlenb : ((S ++ c).drop (numWindows W H S.length * H)).length
        = (S ++ c).length - numWindows W H S.length * H := by
      simp [List.length_drop]
    rw [hlenb]
    have hdrop2 : (((S ++ c).drop (numWindows W H S.length * H)).drop
          (numWindows W H ((S ++ c).length - numWindows W H S.length * H) * H))
        = (S ++ c).drop (numWindows W H (S ++ c).length * H) := by
      rw [List.drop_drop, hsplit_c, Nat.add_mul]
    rw [hdrop2, ih (S ++ c)]
    have hfull : S ++ (c :: cs).join = (S ++ c) ++ cs.join := by
      simp [List.append_assoc]
    rw [hfull]
    have hm2M : numWindows W H (S ++ c).length ≤
        numWindows W H ((S ++ c) ++ cs.join).length := by
      have hsp := numWindows_split hH hWH (S ++ c).length ((S ++ c) ++ cs.join).length
        (by simp)
      omega
    simp only [Prod.mk.injEq]
    refine ⟨?_, trivial⟩
    have hg : (List.range (numWindows W H ((S ++ c).length - numWindows W H S.length * H))).map
          (fun k => ((((S ++ c)).drop (numWindows W H S.length * H)).drop (k * H)).take W)
        = (List.range' (numWindows W H S.length)
            (numWindows W H ((S ++ c).length - numWindows W H S.length * H))).map
          (fun k => (((S ++ c) ++ cs.join).drop (k * H)).take W) := by
      rw [List.range'_eq_map_range, List.map_map]
      apply List.map_congr_left
      intro k hk
      have hkm2 : k < numWindows W H ((S ++ c).length - numWindows W H S.length * H) :=
        List.mem_range.mp hk
      have hwin := numWindows_window_le hH hWH
        ((S ++ c).length - numWindows W H S.length * H) k hkm2
      simp only [Function.comp_apply]
      rw [List.drop_drop]
      have h1 : numWindows W H S.length * H + k * H = (numWindows W H S.length + k) * H := by
        ring
      rw [h1]
      have hle1 : (numWindows W H S.length + k) * H ≤ (S ++ c).length := by
        rw [Nat.add_mul]
        omega
      rw [List.drop_append_of_le_length hle1]
      rw [List.take_append_of_le_length ?hW2]
      case hW2 =>
        rw [List.length_drop, Nat.add_mul]
        omega
    rw [hg, ← List.map_append, hsplit_c, List.range'_append_1]
    have harith : numWindows W H (S ++ c ++ cs.join).length -
        (numWindows W H S.length + numWindows W H ((S ++ c).length - numWindows W H S.length * H)) +
        numWindows W H ((S ++ c).length - numWindows W H S.length * H) =
        numWindows W H (S ++ c ++ cs.join).length - numWindows W H S.length := by
      omega
    rw [harith]

/-- Characterization of a full run from the empty buffer: the emitted windows
are exactly the stride windows of the concatenated stream. -/
theorem runChunks_spec {α : Type} {W H : ℕ} (hH : 0 < H) (hWH : H ≤ W) (cs : List (List α)) :
    runChunks W H cs =
      ((List.range (numWindows W H cs.join.length)).map (fun k => (cs.join.drop (k * H)).take W),
       cs.join.drop (numWindows W H cs.join.length * H)) := by
  have hW : 0 < W := by omega
  have h := runChunksFrom_spec hH hWH cs ([] : List α)
  have h0 : numWindows W H (0 : ℕ) = 0 := numWindows_zero 0 (by omega)
  simp only [List.length_nil, h0, Nat.zero_mul, List.drop_zero, List.nil_append,
    Nat.sub_zero] at h
  rw [runChunks, h, ← List.range_eq_range']

end WakeWordDetector

/-- C3: for every sequence of chunks pushed into `processAudioChunk` (with
hop `0 < H ≤ W`, satisfied by the source constants `H = 1920`, `W = 17280`),
the emitted windows are exactly the `W`-sample slices of the concatenated
input stream starting at offsets `0, H, 2H, ...` in order — so every window
has exactly `W` samples, successive windows start exactly `H` samples apart,
no window (offset) is emitted twice, and the final buffer still holds every
sample from the last stride boundary on, so the only samples ever discarded
from the buffer are the `H`-sample stride rollovers of emitted windows. -/
theorem frame_batcher_stride (α : Type) (W H : ℕ) (hH : 0 < H) (hWH : H ≤ W)
    (cs : List (List α)) :
    (WakeWordDetector.runChunks W H cs).1 =
      (List.range (WakeWordDetector.numWindows W H cs.join.length)).map
        (fun k => (cs.join.drop (k * H)).take W) ∧
    (∀ w ∈ (WakeWordDetector.runChunks W H cs).1, w.length = W) ∧
    (WakeWordDetector.runChunks W H cs).2 =
      cs.join.drop (WakeWordDetector.numWindows W H cs.join.length * H) := by
  have h := WakeWordDetector.runChunks_spec hH hWH cs
  refine ⟨by rw [h], ?_, by rw [h]⟩
  intro w hw
  rw [h] at hw
  simp only [List.mem_map, List.mem_range] at hw
  obtain ⟨k, hk, rfl⟩ := hw
  have hwin := WakeWordDetector.numWindows_window_le hH hWH cs.join.length k hk
  rw [List.length_take, List.length_drop]
  omega

/-- Witness for `frame_batcher_stride`: with `W = 3`, `H = 2` and the chunked
stream `[0,1,2,3] ++ [4,5]`, the batcher emits `[0,1,2]` and `[2,3,4]`
(offsets 0 and 2) and retains `[4,5]`. -/
theorem frame_batcher_stride_witness :
    (∀ w ∈ (WakeWordDetector.runChunks 3 2 ([[0, 1, 2, 3], [4, 5]] : List (List ℕ))).1,
      w.length = 3) ∧
    (WakeWordDetector.runChunks 3 2 ([[0, 1, 2, 3], [4, 5]] : List (List ℕ))).1 =
      [[0, 1, 2], [2, 3, 4]] ∧
    (WakeWordDetector.runChunks 3 2 ([[0, 1, 2, 3], [4, 5]] : List (List ℕ))).2 = [4, 5] :=
  ⟨(frame_batcher_stride ℕ 3 2 (by decide) (by decide) [[0, 1, 2, 3], [4, 5]]).2.1,
   by decide, by decide⟩

namespace WakeWordDetector

/-- The detection timestamp never decreases across a batch. -/
theorem processBatch_last_mono (cfg : DetConfig) (s : DetectorState) (b : BatchInput) :
    s.lastWakeWordTime ≤ (processBatch cfg s b).1.lastWakeWordTime := by
  simp only [processBatch]
  split_ifs <;> simp_all <;> omega

/-- A `detected` emission implies the cooldown test passed and the timestamp
was stamped with the current time. -/
theorem processBatch_detected_accept (cfg : DetConfig) (s : DetectorState) (b : BatchInput) :
    DetEvent.detected ∈ (processBatch cfg s b).2 →
    s.lastWakeWordTime + cfg.cooldownMs ≤ b.now ∧
    (processBatch cfg s b).1.lastWakeWordTime = b.now := by
  simp only [processBatch]
  split_ifs <;> intro hmem <;> simp_all

/-- Without a `detected` emission the detection timestamp is unchanged. -/
theorem processBatch_not_detected (cfg : DetConfig) (s : DetectorState) (b : BatchInput) :
    DetEvent.detected ∉ (processBatch cfg s b).2 →
    (processBatch cfg s b).1.lastWakeWordTime = s.lastWakeWordTime := by
  simp only [processBatch]
  split_ifs <;> intro hmem <;> simp_all

/-- Any `detected` emission in a run happens at least a cooldown after the
initial detection timestamp. -/
theorem runBatches_detected_le (cfg : DetConfig) :
    ∀ (bs : List BatchInput) (s0 : DetectorState) (j : ℕ),
      DetEvent.detected ∈ ((runBatches cfg s0 bs).2.getD j []) →
      s0.lastWakeWordTime + cfg.cooldownMs ≤ (bs.getD j default).now := by
  intro bs
  induction bs with
  | nil =>
    intro s0 j h
    simp [runBatches] at h
  | cons b bs ih =>
    intro s0 j h
    cases j with
    | zero =>
      simp only [runBatches, List.getD_cons_zero] at h ⊢
      exact (processBatch_detected_accept cfg s0 b h).1
    | succ j =>
      simp only [runBatches, List.getD_cons_succ] at h ⊢
      have h2 := ih (processBatch cfg s0 b).1 j h
      have h3 := processBatch_last_mono cfg s0 b
      omega

/-- Any two `detected` emissions in a run are at least a cooldown apart. -/
theorem runBatches_cooldown_spacing (cfg : DetConfig) :
    ∀ (bs : List BatchInput) (s0 : DetectorState) (i j : ℕ), i < j →
      DetEvent.detected ∈ ((runBatches cfg s0 bs).2.getD i []) →
      DetEvent.detected ∈ ((runBatches cfg s0 bs).2.getD j []) →
      (bs.getD i default).now + cfg.cooldownMs ≤ (bs.getD j default).now := by
  intro bs
  induction bs with
  | nil =>
    intro s0 i j hij hi hj
    simp [runBatches] at hi
  | cons b bs ih =>
    intro s0 i j hij hi hj
    cases i with
    | zero =>
      cases j with
      | zero => omega
      | succ j =>
        simp only [runBatches, List.getD_cons_zero, List.getD_cons_succ] at hi hj ⊢
        have hupd := (processBatch_detected_accept cfg s0 b hi).2
        have h2 := runBatches_detected_le cfg bs (processBatch cfg s0 b).1 j hj
        omega
    | succ i =>
      cases j with
      | zero => omega
      | succ j =>
        simp only [runBatches, List.getD_cons_succ] at hi hj ⊢
        exact ih (processBatch cfg s0 b).1 i j (by omega) hi hj

end WakeWordDetector

set_option maxRecDepth 20000 in
/-- C4 as stated fails on the code: in `cooldownTrace` the detection at batch
15 (10000 ms) is accepted, and batches 16 (11000 ms) and 17 (11500 ms) are
two batches whose classifier probability qualifies and whose timestamps are
500 ms < cooldownMs apart, yet neither emits a `detected` event — zero, not
exactly one, because both fall within the cooldown of the earlier accepted
detection. -/
theorem cooldown_exactly_one_counterexample :
    WakeWordDetector.DetEvent.detected ∈
      (WakeWordDetector.runBatches WakeWordDetector.defaultConfig
        WakeWordDetector.initialState WakeWordDetector.cooldownTrace).2.getD 15 [] ∧
    WakeWordDetector.defaultConfig.threshold ≤
      (WakeWordDetector.cooldownTrace.getD 16 default).wwProb ∧
    WakeWordDetector.defaultConfig.threshold ≤
      (WakeWordDetector.cooldownTrace.getD 17 default).wwProb ∧
    (WakeWordDetector.cooldownTrace.getD 17 default).now -
        (WakeWordDetector.cooldownTrace.getD 16 default).now <
      WakeWordDetector.defaultConfig.cooldownMs ∧
    WakeWordDetector.DetEvent.detected ∉
      (WakeWordDetector.runBatches WakeWordDetector.defaultConfig
        WakeWordDetector.initialState WakeWordDetector.cooldownTrace).2.getD 16 [] ∧
    WakeWordDetector.DetEvent.detected ∉
      (WakeWordDetector.runBatches WakeWordDetector.defaultConfig
        WakeWordDetector.initialState WakeWordDetector.cooldownTrace).2.getD 17 [] := by
  decide

/-- C4 amended: any two `detected` emissions in a run are at least
`cooldownMs` apart (so two qualifying batches closer than the cooldown
produce at most one `detected`, and exactly one when the earlier of them is
accepted); a qualifying result is accepted only if
`now - lastWakeWordTime >= cooldownMs`, and `lastWakeWordTime` is updated to
`now` exactly on accepted detections and unchanged otherwise. -/
theorem cooldown_debounce_amended (cfg : WakeWordDetector.DetConfig)
    (s0 : WakeWordDetector.DetectorState) (bs : List WakeWordDetector.BatchInput)
    (i j : ℕ) (hij : i < j)
    (hi : WakeWordDetector.DetEvent.detected ∈
      ((WakeWordDetector.runBatches cfg s0 bs).2.getD i []))
    (hj : WakeWordDetector.DetEvent.detected ∈
      ((WakeWordDetector.runBatches cfg s0 bs).2.getD j [])) :
    (bs.getD i default).now + cfg.cooldownMs ≤ (bs.getD j default).now ∧
    (∀ s b, WakeWordDetector.DetEvent.detected ∈ (WakeWordDetector.processBatch cfg s b).2 →
      s.lastWakeWordTime + cfg.cooldownMs ≤ b.now ∧
      (WakeWordDetector.processBatch cfg s b).1.lastWakeWordTime = b.now) ∧
    (∀ s b, WakeWordDetector.DetEvent.detected ∉ (WakeWordDetector.processBatch cfg s b).2 →
      (WakeWordDetector.processBatch cfg s b).1.lastWakeWordTime = s.lastWakeWordTime) :=
  ⟨WakeWordDetector.runBatches_cooldown_spacing cfg bs s0 i j hij hi hj,
   fun s b => WakeWordDetector.processBatch_detected_accept cfg s b,
   fun s b => WakeWordDetector.processBatch_not_detected cfg s b⟩

set_option maxRecDepth 20000 in
/-- Witness for `cooldown_debounce_amended`: in `acceptTrace`, detections are
accepted at batches 15 and 16, and their timestamps are a full cooldown
apart. -/
theorem cooldown_debounce_amended_witness :
    WakeWordDetector.DetEvent.detected ∈
      (WakeWordDetector.runBatches WakeWordDetector.defaultConfig
        WakeWordDetector.initialState WakeWordDetector.acceptTrace).2.getD 15 [] ∧
    WakeWordDetector.DetEvent.detected ∈
      (WakeWordDetector.runBatches WakeWordDetector.defaultConfig
        WakeWordDetector.initialState WakeWordDetector.acceptTrace).2.getD 16 [] ∧
    (WakeWordDetector.acceptTrace.getD 15 default).now +
        WakeWordDetector.defaultConfig.cooldownMs ≤
      (WakeWordDetector.acceptTrace.getD 16 default).now :=
  ⟨by decide, by decide,
   (cooldown_debounce_amended WakeWordDetector.defaultConfig WakeWordDetector.initialState
     WakeWordDetector.acceptTrace 15 16 (by decide) (by decide) (by decide)).1⟩

set_option maxRecDepth 20000 in
/-- C5 fails on the code: from the reachable state `midRecordingModel` (an
initialized, started pipeline whose wake-word detection just opened a
recording session), `stop()` does set the state to `idle`, unsubscribe every
audio listener and stop the detector — but the open recording session
survives: `isRecording` is still true and `recordingBuffer` still holds the
seed window.  Neither `VoicePipeline.stop` nor `WakeWordDetector.stop`
touches `isRecording` or `recordingBuffer`. -/
theorem stop_leaves_open_session :
    (VoicePipeline.stopP VoicePipeline.midRecordingModel).state = VoicePipeline.PState.idle ∧
    (VoicePipeline.stopP VoicePipeline.midRecordingModel).det.listeners = 0 ∧
    (VoicePipeline.stopP VoicePipeline.midRecordingModel).det.isRunning = false ∧
    (VoicePipeline.stopP VoicePipeline.midRecordingModel).det.isRecording = true ∧
    (VoicePipeline.stopP VoicePipeline.midRecordingModel).det.recordingBuffer =
      some [(15 : ℤ)] := by
  decide

set_option maxRecDepth 20000 in
/-- C8 as stated fails on the code: in `acceptTrace` the detection at batch
15 opens a recording session seeded with batch 15's audio, and the accepted
detection at batch 16 (a full cooldown later, while that session is still
open) is not a no-op — it replaces the open session's buffer with batch 16's
seed window, so the already-open session is not preserved. -/
theorem open_session_replaced_counterexample :
    (WakeWordDetector.runBatches WakeWordDetector.defaultConfig
        WakeWordDetector.initialState (WakeWordDetector.acceptTrace.take 16)).1.isRecording
      = true ∧
    (WakeWordDetector.runBatches WakeWordDetector.defaultConfig
        WakeWordDetector.initialState (WakeWordDetector.acceptTrace.take 16)).1.recordingBuffer
      = some [(15 : ℤ)] ∧
    WakeWordDetector.DetEvent.detected ∈
      (WakeWordDetector.runBatches WakeWordDetector.defaultConfig
        WakeWordDetector.initialState WakeWordDetector.acceptTrace).2.getD 16 [] ∧
    (WakeWordDetector.runBatches WakeWordDetector.defaultConfig
        WakeWordDetector.initialState WakeWordDetector.acceptTrace).1.recordingBuffer
      = some [(16 : ℤ)] ∧
    ¬ (WakeWordDetector.runBatches WakeWordDetector.defaultConfig
        WakeWordDetector.initialState WakeWordDetector.acceptTrace).1.recordingBuffer
      = some [(15 : ℤ)] := by
  decide

namespace WakeWordDetector

/-- C8 amended: at most one recording session exists at a time (a single
buffer slot), and a qualifying detection that fires while a session is open
is a no-op only when it falls inside the cooldown window — the session and
its buffer are then preserved unchanged; an accepted detection (cooldown
elapsed) instead replaces the open session's buffer with the new seed
window.  Stated for any batch that reaches the classifier: the VAD leaves
the detector speaking, the embedding window is full after the push, and the
classifier probability qualifies. -/
theorem detection_while_recording_amended (cfg : DetConfig) (s : DetectorState)
    (b : BatchInput)
    (hsp : (VADProcessor.process cfg.vad s.vadState b.score).2.isSpeaking = true)
    (hfull : cfg.embeddingFrames ≤ s.embeddingBuffer.length + 1)
    (hq : cfg.threshold ≤ b.wwProb) :
    (s.lastWakeWordTime + cfg.cooldownMs ≤ b.now →
      (processBatch cfg s b).1.recordingBuffer = some b.audio ∧
      (processBatch cfg s b).1.isRecording = true) ∧
    (¬(s.lastWakeWordTime + cfg.cooldownMs ≤ b.now) →
      (processBatch cfg s b).1.recordingBuffer = s.recordingBuffer ∧
      (processBatch cfg s b).1.isRecording = s.isRecording) := by
  have hiso : (VADProcessor.process cfg.vad s.vadState b.score).2.isSpeaking
      = (VADProcessor.process cfg.vad s.vadState b.score).1.isSpeaking := rfl
  have hje : (VADProcessor.process cfg.vad s.vadState b.score).2.justEnded
      = (!(VADProcessor.process cfg.vad s.vadState b.score).1.isSpeaking
          && s.vadState.isSpeaking) := rfl
  have hj : (VADProcessor.process cfg.vad s.vadState b.score).2.justEnded = false := by
    rw [hje, ← hiso, hsp]
    rfl
  simp only [processBatch, hsp, hj]
  simp only [Bool.false_eq_true, if_false, Bool.true_eq_false, List.length_append,
    List.length_cons, List.length_nil]
  by_cases hlen : cfg.embeddingFrames < s.embeddingBuffer.length + 1
  · simp only [if_pos hlen]
    have hlen2 : cfg.embeddingFrames ≤ ((s.embeddingBuffer ++ [b.emb]).drop 1).length := by
      simp [List.length_drop]
      omega
    rw [if_pos hlen2]
    constructor <;> intro hcd
    · rw [if_pos ⟨hq, hcd⟩]
      exact ⟨rfl, rfl⟩
    · rw [if_neg (by tauto)]
      exact ⟨rfl, rfl⟩
  · simp only [if_neg hlen]
    have hlen2 : cfg.embeddingFrames ≤ (s.embeddingBuffer ++ [b.emb]).length := by
      simp
      omega
    rw [if_pos hlen2]
    constructor <;> intro hcd
    · rw [if_pos ⟨hq, hcd⟩]
      exact ⟨rfl, rfl⟩
    · rw [if_neg (by tauto)]
      exact ⟨rfl, rfl⟩

end WakeWordDetector

/-- The apology string built for a failed tool is never empty, whatever the
error message. -/
theorem apology_isEmpty_false (e : String) :
    ("Sorry, I had trouble with that. " ++ e).isEmpty = false := by
  rw [Bool.eq_false_iff]
  intro h
  have h2 := (String.isEmpty_iff _).mp h
  have hl := congrArg String.length h2
  rw [String.length_append] at hl
  have h32 : ("Sorry, I had trouble with that. " : String).length = 32 := rfl
  have h0 : ("" : String).length = 0 := rfl
  omega

/-- C6: when the invoked tool handler rejects, the error is caught at the
stage boundary inside `FunctionCaller.process`: the cycle resolves normally
(no pipeline fault: the `error` event is not emitted), the result's response
is replaced by the apologetic string `Sorry, I had trouble with that.`
followed by the handler's message with `executed = false`, and the pipeline
is unpaused in state `listening` when the cycle completes. -/
theorem tool_failure_contained (tools : List String)
    (handlers : String → Option String → Except String FunctionCaller.ToolResult)
    (sttOut : Option (List ℤ) → Except String String)
    (gen : String → Except String FunctionCaller.FCResult)
    (ttsOut : String → Except String Unit)
    (m : VoicePipeline.PipelineModel) (audio : Option (List ℤ))
    (t : String) (pr : FunctionCaller.FCResult) (f e : String)
    (hm : m.state = VoicePipeline.PState.recording)
    (hstt : sttOut audio = Except.ok t)
    (ht : blankTranscript t = false)
    (hgen : gen t = Except.ok pr)
    (hf : pr.function = some f)
    (hfe : f.isEmpty = false)
    (hft : f ∈ tools)
    (hh : handlers f pr.parameters = Except.error e)
    (htts : ttsOut ("Sorry, I had trouble with that. " ++ e) = Except.ok ()) :
    (VoicePipeline.onSpeechEnd tools handlers sttOut gen ttsOut m audio).pipeline.state
      = VoicePipeline.PState.listening ∧
    (VoicePipeline.onSpeechEnd tools handlers sttOut gen ttsOut m audio).pipeline.isPaused
      = false ∧
    (VoicePipeline.onSpeechEnd tools handlers sttOut gen ttsOut m audio).result
      = some ({ pr with
          executed := some false
          error := some e
          response := some ("Sorry, I had trouble with that. " ++ e) }) ∧
    (VoicePipeline.onSpeechEnd tools handlers sttOut gen ttsOut m audio).errEvent = none ∧
    (VoicePipeline.onSpeechEnd tools handlers sttOut gen ttsOut m audio).spoken
      = ["Sorry, I had trouble with that. " ++ e] := by
  have hr : FunctionCaller.process tools handlers (gen t)
      = { pr with
          executed := some false
          error := some e
          response := some ("Sorry, I had trouble with that. " ++ e) } := by
    rw [hgen]
    simp only [FunctionCaller.process, hf, hh]
    rw [if_pos ⟨by simp [hfe], hft⟩]
  simp only [VoicePipeline.onSpeechEnd, hm]
  rw [if_neg (by simp)]
  rw [hstt]
  simp only [ht, Bool.false_eq_true, if_false]
  rw [hr]
  simp only [truthyStr, apology_isEmpty_false, Bool.not_false, if_true]
  simp only [Option.getD_some]
  rw [htts]
  exact ⟨rfl, rfl, rfl, rfl, rfl⟩

/-- Witness for `tool_failure_contained`: a recording pipeline transcribes
`play some music`, the model picks the registered `play_youtube` tool, and
the handler rejects with `YouTube API down`. -/
theorem tool_failure_contained_witness :
    (VoicePipeline.onSpeechEnd ["play_youtube"] (fun _ _ => Except.error "YouTube API down")
        (fun _ => Except.ok "play some music")
        (fun _ => Except.ok ⟨some "play_youtube", some "q", some "OK", none, none, none⟩)
        (fun _ => Except.ok ())
        ⟨VoicePipeline.PState.recording, false, true, WakeWordDetector.initialState⟩
        (some [1])).pipeline.state = VoicePipeline.PState.listening ∧
    (VoicePipeline.onSpeechEnd ["play_youtube"] (fun _ _ => Except.error "YouTube API down")
        (fun _ => Except.ok "play some music")
        (fun _ => Except.ok ⟨some "play_youtube", some "q", some "OK", none, none, none⟩)
        (fun _ => Except.ok ())
        ⟨VoicePipeline.PState.recording, false, true, WakeWordDetector.initialState⟩
        (some [1])).result
      = some ⟨some "play_youtube", some "q",
          some "Sorry, I had trouble with that. YouTube API down", some false,
          some "YouTube API down", none⟩ :=
  have h := tool_failure_contained ["play_youtube"] (fun _ _ => Except.error "YouTube API down")
    (fun _ => Except.ok "play some music")
    (fun _ => Except.ok ⟨some "play_youtube", some "q", some "OK", none, none, none⟩)
    (fun _ => Except.ok ())
    ⟨VoicePipeline.PState.recording, false, true, WakeWordDetector.initialState⟩
    (some [1]) "play some music"
    ⟨some "play_youtube", some "q", some "OK", none, none, none⟩
    "play_youtube" "YouTube API down"
    rfl rfl (by decide) rfl rfl rfl (by decide) rfl rfl
  ⟨h.1, h.2.2.1⟩

/-- C7 as stated fails on the code: calling `processText("play some music")`
on a freshly-constructed pipeline (a reachable call the source supports —
`processText` initializes on demand) resolves with the pipeline still in
state `idle`, not `listening`, even though the registered `play_youtube`
tool returned `Playing X` and `Playing X` was the text spoken.
`processText` never changes the pipeline state. -/
theorem processText_state_counterexample :
    ((VoicePipeline.processText ["play_youtube"]
        (fun _ _ => Except.ok ⟨some "Playing X"⟩)
        (fun _ => Except.ok ⟨some "play_youtube", some "q", some "Playing music for you",
          none, none, none⟩)
        (fun _ => Except.ok ())
        VoicePipeline.initialModel "play some music").map
      (fun out => (out.1.state, out.2.1.response, out.2.2)))
      = Except.ok (VoicePipeline.PState.idle, some "Playing X", ["Playing X"]) ∧
    VoicePipeline.PState.idle ≠ VoicePipeline.PState.listening := by
  constructor
  · rfl
  · decide

/-- C7 amended: `processText` leaves the pipeline state exactly as it found
it — so it resolves in `listening` precisely when the pipeline was listening
when called (e.g. after `start`) — and the text driven into `tts.speak` is
the tool-provided `Playing X`, which overrides the model-proposed response
in the returned result. -/
theorem processText_amended (tools : List String)
    (handlers : String → Option String → Except String FunctionCaller.ToolResult)
    (gen : String → Except String FunctionCaller.FCResult)
    (ttsOut : String → Except String Unit)
    (m : VoicePipeline.PipelineModel) (text : String) (pr : FunctionCaller.FCResult)
    (hinit : m.isInitialized = true)
    (hgen : gen text = Except.ok pr)
    (hf : pr.function = some "play_youtube")
    (hft : "play_youtube" ∈ tools)
    (hh : handlers "play_youtube" pr.parameters = Except.ok ⟨some "Playing X"⟩)
    (htts : ttsOut "Playing X" = Except.ok ()) :
    VoicePipeline.processText tools handlers gen ttsOut m text
      = Except.ok (m, ({ pr with
          response := some "Playing X"
          executed := some true
          toolResult := some ⟨some "Playing X"⟩ }), ["Playing X"]) := by
  have hr : FunctionCaller.process tools handlers (gen text)
      = { pr with
          response := some "Playing X"
          executed := some true
          toolResult := some ⟨some "Playing X"⟩ } := by
    rw [hgen]
    simp only [FunctionCaller.process, hf, hh]
    rw [if_pos ⟨by decide, hft⟩]
    rfl
  simp only [VoicePipeline.processText, hinit, if_true]
  rw [hr]
  simp only [truthyStr, Option.getD_some]
  rw [htts]
  simp only [show ("Playing X".isEmpty) = false from rfl, Bool.not_false, if_true]

/-- Witness for `processText_amended`: a started (listening) pipeline with
the `play_youtube` tool resolves in `listening` and speaks `Playing X`. -/
theorem processText_amended_witness :
    VoicePipeline.processText ["play_youtube"] (fun _ _ => Except.ok ⟨some "Playing X"⟩)
      (fun _ => Except.ok ⟨some "play_youtube", some "q", some "Playing music for you",
        none, none, none⟩)
      (fun _ => Except.ok ())
      ⟨VoicePipeline.PState.listening, false, true, WakeWordDetector.initialState⟩
      "play some music"
    = Except.ok (⟨VoicePipeline.PState.listening, false, true, WakeWordDetector.initialState⟩,
        ⟨some "play_youtube", some "q", some "Playing X", some true, none,
          some ⟨some "Playing X"⟩⟩,
        ["Playing X"]) :=
  processText_amended ["play_youtube"] (fun _ _ => Except.ok ⟨some "Playing X"⟩)
    (fun _ => Except.ok ⟨some "play_youtube", some "q", some "Playing music for you",
      none, none, none⟩)
    (fun _ => Except.ok ())
    ⟨VoicePipeline.PState.listening, false, true, WakeWordDetector.initialState⟩
    "play some music"
    ⟨some "play_youtube", some "q", some "Playing music for you", none, none, none⟩
    rfl rfl rfl (by decide) rfl rfl

/-- Witness for `detection_while_recording_amended`: a recording detector
with a nearly-full embedding window accepts a new detection 3000 ms after
the previous one and the open session's buffer is replaced by the new seed
window. -/
theorem detection_while_recording_amended_witness :
    (WakeWordDetector.processBatch WakeWordDetector.defaultConfig
        ⟨true, false, true, 5000, some [9], ⟨true, 0⟩,
          [0, 1, 2, 3, 4, 5, 6, 7, 8, 9, 10, 11, 12, 13, 14], 1⟩
        ⟨mkRat 9 10, 99, mkRat 9 10, 8000, [7]⟩).1.recordingBuffer = some [(7 : ℤ)] ∧
    (WakeWordDetector.processBatch WakeWordDetector.defaultConfig
        ⟨true, false, true, 5000, some [9], ⟨true, 0⟩,
          [0, 1, 2, 3, 4, 5, 6, 7, 8, 9, 10, 11, 12, 13, 14], 1⟩
        ⟨mkRat 9 10, 99, mkRat 9 10, 8000, [7]⟩).1.isRecording = true :=
  (WakeWordDetector.detection_while_recording_amended WakeWordDetector.defaultConfig
    ⟨true, false, true, 5000, some [9], ⟨true, 0⟩,
      [0, 1, 2, 3, 4, 5, 6, 7, 8, 9, 10, 11, 12, 13, 14], 1⟩
    ⟨mkRat 9 10, 99, mkRat 9 10, 8000, [7]⟩
    (by decide) (by decide) (by decide)).1 (by decide)
